import Mathlib

/-!
Verification development for the Startup Expenditure API backend
(`main.py` + `schemas.py`): a document-store gateway exposing
create/list operations over three record kinds (category, expense,
budget), with pydantic-style validation of inbound payloads and
response normalization (ObjectId stringification, ISO-8601 dates).

Documents are modelled as association lists of string keys to JSON-like
values, mirroring Python dicts produced by `model_dump()`. The generic
store helpers `create_document` / `get_documents` live in `database.py`,
which is not part of the sources; they are modelled from the spec and
marked as such.
-/

/-- A UTC timestamp, mirroring Python `datetime.datetime` (naive UTC as
produced by `datetime.utcnow()`). -/
structure Datetime where
  year : Nat
  month : Nat
  day : Nat
  hour : Nat
  minute : Nat
  second : Nat
  microsecond : Nat
deriving DecidableEq, Repr

/-- Left-pad the decimal rendering of `n` with zeros to width `w`. -/
def padNat (w : Nat) (n : Nat) : String :=
  let s := toString n
  if s.length < w then String.mk (List.replicate (w - s.length) '0') ++ s else s

/-- Python `datetime.isoformat()`: `YYYY-MM-DDTHH:MM:SS` with a
`.ffffff` microsecond part appended only when microseconds are nonzero. -/
def Datetime.isoformat (t : Datetime) : String :=
  padNat 4 t.year ++ "-" ++ padNat 2 t.month ++ "-" ++ padNat 2 t.day ++ "T" ++
    padNat 2 t.hour ++ ":" ++ padNat 2 t.minute ++ ":" ++ padNat 2 t.second ++
    (if t.microsecond = 0 then "" else "." ++ padNat 6 t.microsecond)

/-- Modelled from the spec: the store-assigned opaque identifier
(pymongo `ObjectId`; `database.py` is not in the sources). The payload
is abstracted as a natural number. -/
structure ObjectId where
  oid : Nat
deriving DecidableEq, Repr

/-- Hexadecimal digit character for a value below 16. -/
def hexDigit (n : Nat) : Char :=
  if n < 10 then Char.ofNat (48 + n) else Char.ofNat (87 + n)

/-- Modelled from the spec: the canonical string form of a store-assigned
identifier — 24 hexadecimal characters, as rendered by `str(ObjectId)`. -/
def ObjectId.toStr (o : ObjectId) : String :=
  String.mk ((List.range 24).map (fun i => hexDigit (o.oid / 16 ^ (23 - i) % 16)))

/-- JSON-like field values of a stored or transmitted document. -/
inductive Value where
  | vNull : Value
  | vStr : String → Value
  | vInt : Int → Value
  | vNum : Rat → Value
  | vObjectId : ObjectId → Value
  | vDatetime : Datetime → Value
deriving DecidableEq, Repr

/-- A document: a Python dict with string keys, as produced by
`model_dump()` and stored in a collection. Keys are unique in practice. -/
abbrev Doc : Type := List (String × Value)

/-- Python `d.get(k)` / `d[k]` read: the value at the first occurrence
of key `k`, if any. -/
def docGet (d : Doc) (k : String) : Option Value :=
  match d with
  | [] => none
  | (k', v) :: rest => if k' = k then some v else docGet rest k

/-- Python `d[k] = v` write: update the first occurrence of `k` in place,
or append the binding at the end (dict insertion order). -/
def docSet (d : Doc) (k : String) (v : Value) : Doc :=
  match d with
  | [] => [(k, v)]
  | (k', v') :: rest => if k' = k then (k, v) :: rest else (k', v') :: docSet rest k v

/-- Python `str()` applied to a field value (used for `str(it["_id"])`). -/
def valueStr : Value → String
  | .vNull => "None"
  | .vStr s => s
  | .vInt n => toString n
  | .vNum q => toString q
  | .vObjectId o => o.toStr
  | .vDatetime t => t.isoformat

/-- Python truthiness of `data.get(k)`: `None` (and a missing key) are
falsy; strings/numbers are irrelevant here and a `datetime` is always
truthy. Mirrors `not data.get("date")` in `create_expense`. -/
def isFalsy : Option Value → Bool
  | none => true
  | some .vNull => true
  | some _ => false

/-- Render an optional string field the way `model_dump()` does:
`None` when absent. -/
def optValStr : Option String → Value
  | none => .vNull
  | some s => .vStr s

/-- Modelled from the spec: the document store state behind `database.py`
(not in the sources) — named collections of documents plus a counter
from which fresh store-assigned identifiers are drawn. -/
structure Store where
  nextOid : Nat
  colls : List (String × List Doc)
deriving DecidableEq, Repr

/-- Association-list read of a named collection (missing ⇒ empty). -/
def collGet (cs : List (String × List Doc)) (c : String) : List Doc :=
  match cs with
  | [] => []
  | (c', ds) :: rest => if c' = c then ds else collGet rest c

/-- Association-list write of a named collection. -/
def collSet (cs : List (String × List Doc)) (c : String) (ds : List Doc) :
    List (String × List Doc) :=
  match cs with
  | [] => [(c, ds)]
  | (c', ds') :: rest => if c' = c then (c, ds) :: rest else (c', ds') :: collSet rest c ds

/-- The documents currently stored in collection `c`. -/
def Store.getColl (s : Store) (c : String) : List Doc :=
  collGet s.colls c

/-- Modelled from the spec: `createDocument(collectionName, record) →
identifier` (`database.py` is not in the sources). Inserts the record as
a new document carrying a fresh store-assigned identifier into the named
collection and returns that identifier. -/
def create_document (s : Store) (coll : String) (record : Doc) : ObjectId × Store :=
  let oid : ObjectId := ⟨s.nextOid⟩
  let doc := docSet record "_id" (.vObjectId oid)
  (oid, { nextOid := s.nextOid + 1, colls := collSet s.colls coll (s.getColl coll ++ [doc]) })

/-- Exact-match filter: every filter key must compare equal in the
document (no range or pattern matching). -/
def matchesFilter (filt : Doc) (d : Doc) : Bool :=
  filt.all (fun kv => docGet d kv.1 = some kv.2)

/-- Modelled from the spec: `listDocuments(collectionName, filter, limit)`
(`database.py` is not in the sources). Retrieves the documents of the
named collection matching an exact-match field filter, truncated to
`limit` when given. -/
def get_documents (s : Store) (coll : String) (filt : Doc) (lim : Option Nat) : List Doc :=
  let matched := (s.getColl coll).filter (fun d => matchesFilter filt d)
  match lim with
  | none => matched
  | some n => matched.take n

/-- Request-boundary errors: pydantic validation failures (client error
class) and `HTTPException` raised by handlers (server error class). -/
inductive ApiError where
  | validationError : String → String → ApiError
  | httpException : Nat → String → ApiError
deriving DecidableEq, Repr

/-- True exactly on pydantic validation failures. -/
def ApiError.isValidation : ApiError → Bool
  | .validationError _ _ => true
  | .httpException _ _ => false

/-- The error `ensure_db` raises when no database handle is configured. -/
def storeUnavailable : ApiError :=
  .httpException 500 "Database not available. Set DATABASE_URL and DATABASE_NAME."

/-- Helper `ensure_db` from `main.py`: raise a 500 `HTTPException` when
the database handle is `None`, otherwise hand the store on. -/
def ensure_db (db : Option Store) : Except ApiError Store :=
  match db with
  | none => .error storeUnavailable
  | some s => .ok s

/-- Pydantic: a required `str` field. -/
def reqStr (raw : Doc) (field : String) : Except ApiError String :=
  match docGet raw field with
  | some (.vStr s) => .ok s
  | some _ => .error (.validationError field "Input should be a valid string")
  | none => .error (.validationError field "Field required")

/-- Pydantic: an `Optional[str]` field defaulting to `None`. -/
def optStr (raw : Doc) (field : String) : Except ApiError (Option String) :=
  match docGet raw field with
  | some (.vStr s) => .ok (some s)
  | some .vNull => .ok none
  | some _ => .error (.validationError field "Input should be a valid string")
  | none => .ok none

/-- Pydantic: an `Optional[datetime]` field defaulting to `None`. -/
def optDate (raw : Doc) (field : String) : Except ApiError (Option Datetime) :=
  match docGet raw field with
  | some (.vDatetime t) => .ok (some t)
  | some .vNull => .ok none
  | some _ => .error (.validationError field "Input should be a valid datetime")
  | none => .ok none

/-- Numeric reading of a value for a `float` field (pydantic coerces
`int` to `float`). -/
def valueAsNum : Value → Option Rat
  | .vInt n => some (n : Rat)
  | .vNum q => some q
  | _ => none

/-- Pydantic: a required `float` field with `Field(..., ge=lo)`. -/
def reqFloatGe (raw : Doc) (field : String) (lo : Rat) : Except ApiError Rat :=
  match docGet raw field with
  | some v =>
    match valueAsNum v with
    | some q =>
      if q < lo then .error (.validationError field "Input should be greater than or equal to the bound")
      else .ok q
    | none => .error (.validationError field "Input should be a valid number")
  | none => .error (.validationError field "Field required")

/-- Pydantic: a required `int` field with `Field(..., ge=lo, le=hi)`. -/
def reqIntRange (raw : Doc) (field : String) (lo hi : Int) : Except ApiError Int :=
  match docGet raw field with
  | some (.vInt n) =>
    if n < lo then .error (.validationError field "Input should be greater than or equal to the bound")
    else if hi < n then .error (.validationError field "Input should be less than or equal to the bound")
    else .ok n
  | some _ => .error (.validationError field "Input should be a valid integer")
  | none => .error (.validationError field "Field required")

/-- `CategoryIn` from `main.py`: `name: str`, `color: Optional[str]`. -/
structure CategoryIn where
  name : String
  color : Option String
deriving DecidableEq, Repr

/-- Pydantic validation of a raw payload against `CategoryIn`. -/
def CategoryIn.validate (raw : Doc) : Except ApiError CategoryIn := do
  let nm ← reqStr raw "name"
  let col ← optStr raw "color"
  pure ⟨nm, col⟩

/-- `CategoryIn.model_dump()`. -/
def CategoryIn.model_dump (p : CategoryIn) : Doc :=
  [("name", .vStr p.name), ("color", optValStr p.color)]

/-- `ExpenseIn` from `main.py`. -/
structure ExpenseIn where
  title : String
  amount : Rat
  category_id : Option String
  date : Option Datetime
  vendor : Option String
  payment_method : Option String
  notes : Option String
deriving DecidableEq, Repr

/-- Pydantic validation of a raw payload against `ExpenseIn`
(`amount` carries `ge=0`). -/
def ExpenseIn.validate (raw : Doc) : Except ApiError ExpenseIn := do
  let ti ← reqStr raw "title"
  let am ← reqFloatGe raw "amount" 0
  let cid ← optStr raw "category_id"
  let dt ← optDate raw "date"
  let ven ← optStr raw "vendor"
  let pm ← optStr raw "payment_method"
  let nts ← optStr raw "notes"
  pure ⟨ti, am, cid, dt, ven, pm, nts⟩

/-- `ExpenseIn.model_dump()`: every field present, `None` for absent
optionals, the `date` as a datetime when given. -/
def ExpenseIn.model_dump (p : ExpenseIn) : Doc :=
  [("title", .vStr p.title), ("amount", .vNum p.amount),
   ("category_id", optValStr p.category_id),
   ("date", match p.date with | none => .vNull | some t => .vDatetime t),
   ("vendor", optValStr p.vendor), ("payment_method", optValStr p.payment_method),
   ("notes", optValStr p.notes)]

/-- `BudgetIn` from `main.py`: note it has no `period` field. -/
structure BudgetIn where
  category_id : Option String
  month : Int
  year : Int
  limit : Rat
deriving DecidableEq, Repr

/-- Pydantic validation of a raw payload against `BudgetIn`
(`1 ≤ month ≤ 12`, `2000 ≤ year ≤ 2100`, `limit ≥ 0`). -/
def BudgetIn.validate (raw : Doc) : Except ApiError BudgetIn := do
  let cid ← optStr raw "category_id"
  let mo ← reqIntRange raw "month" 1 12
  let yr ← reqIntRange raw "year" 2000 2100
  let lim ← reqFloatGe raw "limit" 0
  pure ⟨cid, mo, yr, lim⟩

/-- `BudgetIn.model_dump()`. -/
def BudgetIn.model_dump (p : BudgetIn) : Doc :=
  [("category_id", optValStr p.category_id), ("month", .vInt p.month),
   ("year", .vInt p.year), ("limit", .vNum p.limit)]

/-- Response normalization applied by every list endpoint: cast the
`ObjectId` under `"_id"` to its string form, if the key is present. -/
def stringifyId (d : Doc) : Doc :=
  match docGet d "_id" with
  | some v => docSet d "_id" (.vStr (valueStr v))
  | none => d

/-- Expense list normalization: convert a `datetime` under `"date"` to
its `isoformat()` text (non-datetime values are left alone). -/
def isoDate (d : Doc) : Doc :=
  match docGet d "date" with
  | some (.vDatetime t) => docSet d "date" (.vStr t.isoformat)
  | _ => d

/-- Handler `create_category` from `main.py`. -/
def create_category (db : Option Store) (payload : CategoryIn) :
    Except ApiError (Doc × Store) := do
  let s ← ensure_db db
  let r := create_document s "category" payload.model_dump
  pure (("_id", .vObjectId r.1) :: payload.model_dump, r.2)

/-- Handler `list_categories` from `main.py`. -/
def list_categories (db : Option Store) : Except ApiError (List Doc) := do
  let s ← ensure_db db
  let items := get_documents s "category" [] none
  pure (items.map stringifyId)

/-- Handler `create_expense` from `main.py`: defaults a falsy `date` to
the current UTC timestamp (`now` stands for `datetime.utcnow()`). -/
def create_expense (db : Option Store) (payload : ExpenseIn) (now : Datetime) :
    Except ApiError (Doc × Store) := do
  let s ← ensure_db db
  let data := payload.model_dump
  let data := if isFalsy (docGet data "date") then docSet data "date" (.vDatetime now) else data
  let r := create_document s "expense" data
  pure (("_id", .vObjectId r.1) :: data, r.2)

/-- Handler `list_expenses` from `main.py`. -/
def list_expenses (db : Option Store) (lim : Option Nat) : Except ApiError (List Doc) := do
  let s ← ensure_db db
  let items := get_documents s "expense" [] lim
  pure (items.map (fun it => isoDate (stringifyId it)))

/-- Handler `create_budget` from `main.py`. -/
def create_budget (db : Option Store) (payload : BudgetIn) :
    Except ApiError (Doc × Store) := do
  let s ← ensure_db db
  let r := create_document s "budget" payload.model_dump
  pure (("_id", .vObjectId r.1) :: payload.model_dump, r.2)

/-- Handler `list_budgets` from `main.py`: builds an exact-match filter
from whichever query parameters were supplied. -/
def list_budgets (db : Option Store) (month year : Option Int)
    (category_id : Option String) : Except ApiError (List Doc) := do
  let s ← ensure_db db
  let filt : Doc := []
  let filt := match month with | some m => docSet filt "month" (.vInt m) | none => filt
  let filt := match year with | some y => docSet filt "year" (.vInt y) | none => filt
  let filt := match category_id with | some c => docSet filt "category_id" (.vStr c) | none => filt
  let items := get_documents s "budget" filt none
  pure (items.map stringifyId)

/-- Endpoint `POST /api/categories`: FastAPI validates the payload
before the handler runs. -/
def postCategories (db : Option Store) (raw : Doc) : Except ApiError (Doc × Store) := do
  let p ← CategoryIn.validate raw
  create_category db p

/-- Endpoint `POST /api/expenses`. -/
def postExpenses (db : Option Store) (raw : Doc) (now : Datetime) :
    Except ApiError (Doc × Store) := do
  let p ← ExpenseIn.validate raw
  create_expense db p now

/-- Endpoint `POST /api/budgets`. -/
def postBudgets (db : Option Store) (raw : Doc) : Except ApiError (Doc × Store) := do
  let p ← BudgetIn.validate raw
  create_budget db p

/-- Declarative reading of the exact-match budget filter: a stored budget
document matches iff each supplied query parameter compares equal to the
corresponding stored field; omitted parameters impose no constraint. -/
def budgetMatches (m y : Option Int) (c : Option String) (d : Doc) : Bool :=
  (match m with | none => true | some mv => docGet d "month" = some (.vInt mv)) &&
  ((match y with | none => true | some yv => docGet d "year" = some (.vInt yv)) &&
   (match c with | none => true | some cv => docGet d "category_id" = some (.vStr cv)))

/-- The connected database handle as seen by the diagnostics endpoint:
its name and the outcome of `list_collection_names()` (which may raise). -/
structure DbHandle where
  name : String
  list_collection_names : Except String (List String)
deriving Repr

/-- The response dict of `GET /test`. The `database_url` and
`database_name` entries start out as Python `None`, hence `Option`. -/
structure TestResponse where
  backend : String
  database : String
  database_url : Option String
  database_name : Option String
  connection_status : String
  collections : List String
deriving DecidableEq, Repr

/-- Python truthiness of `os.getenv(...)`: unset and empty are falsy. -/
def envSet : Option String → Bool
  | none => false
  | some s => !s.isEmpty

/-- Handler `test_database` of `GET /test` from `main.py`. `db` is the
module-level handle; `envUrl` / `envName` are the `DATABASE_URL` /
`DATABASE_NAME` environment values. The `try/except` around the
`db is not None` test cannot fire in this model and is elided. -/
def test_database (db : Option DbHandle) (envUrl envName : Option String) : TestResponse :=
  let r : TestResponse :=
    { backend := "✅ Running", database := "❌ Not Available", database_url := none,
      database_name := none, connection_status := "Not Connected", collections := [] }
  let r :=
    match db with
    | some h =>
      let r1 := { r with
        database := "✅ Available"
        database_url := some "✅ Configured"
        database_name := some h.name
        connection_status := "Connected" }
      match h.list_collection_names with
      | .ok cols => { r1 with collections := cols.take 10, database := "✅ Connected & Working" }
      | .error e => { r1 with database := "⚠️  Connected but Error: " ++ e.take 50 }
    | none => { r with database := "⚠️  Available but not initialized" }
  { r with
    database_url := some (if envSet envUrl then "✅ Set" else "❌ Not Set")
    database_name := some (if envSet envName then "✅ Set" else "❌ Not Set") }

/-! ### Basic lemmas about document and collection access -/

theorem docGet_docSet_self (d : Doc) (k : String) (v : Value) :
    docGet (docSet d k v) k = some v := by
  induction d with
  | nil => simp [docGet, docSet]
  | cons kv rest ih =>
    obtain ⟨k', v'⟩ := kv
    by_cases h : k' = k
    · simp [docSet, docGet, h]
    · simp [docSet, docGet, h, ih]

theorem docGet_docSet_ne (d : Doc) (k k' : String) (v : Value) (h : k' ≠ k) :
    docGet (docSet d k v) k' = docGet d k' := by
  induction d with
  | nil =>
    simp only [docGet, docSet]
    rw [if_neg (fun hh => h hh.symm)]
  | cons kv rest ih =>
    obtain ⟨k0, v0⟩ := kv
    by_cases h0 : k0 = k
    · subst h0
      simp only [docSet, if_pos rfl, docGet]
      rw [if_neg (fun hh => h hh.symm), if_neg (fun hh => h hh.symm)]
    · by_cases h1 : k0 = k'
      · simp [docSet, docGet, h0, h1, h]
      · simp [docSet, docGet, h0, h1, ih]

theorem collGet_collSet_self (cs : List (String × List Doc)) (c : String) (ds : List Doc) :
    collGet (collSet cs c ds) c = ds := by
  induction cs with
  | nil => simp [collGet, collSet]
  | cons kv rest ih =>
    obtain ⟨c', ds'⟩ := kv
    by_cases h : c' = c
    · simp [collSet, collGet, h]
    · simp [collSet, collGet, h, ih]

theorem create_document_getColl (s : Store) (c : String) (rec : Doc) :
    ((create_document s c rec).2).getColl c =
      s.getColl c ++ [docSet rec "_id" (.vObjectId ⟨s.nextOid⟩)] := by
  simp [create_document, Store.getColl, collGet_collSet_self]

/-! ### Normalization lemmas -/

theorem docGet_stringifyId_ne (d : Doc) (k : String) (h : k ≠ "_id") :
    docGet (stringifyId d) k = docGet d k := by
  unfold stringifyId
  cases hd : docGet d "_id" with
  | none => rfl
  | some v => exact docGet_docSet_ne d "_id" k _ h

theorem docGet_stringifyId_id (d : Doc) (v : Value) (h : docGet d "_id" = some v) :
    docGet (stringifyId d) "_id" = some (.vStr (valueStr v)) := by
  unfold stringifyId
  rw [h]
  exact docGet_docSet_self d "_id" _

theorem stringifyId_of_no_id (d : Doc) (h : docGet d "_id" = none) :
    stringifyId d = d := by
  unfold stringifyId
  rw [h]

theorem docGet_isoDate_ne (d : Doc) (k : String) (h : k ≠ "date") :
    docGet (isoDate d) k = docGet d k := by
  unfold isoDate
  cases hd : docGet d "date" with
  | none => rfl
  | some v =>
    cases v with
    | vDatetime t => exact docGet_docSet_ne d "date" k _ h
    | vNull => rfl
    | vStr _ => rfl
    | vInt _ => rfl
    | vNum _ => rfl
    | vObjectId _ => rfl

theorem docGet_isoDate_date (d : Doc) (t : Datetime) (h : docGet d "date" = some (.vDatetime t)) :
    docGet (isoDate d) "date" = some (.vStr t.isoformat) := by
  unfold isoDate
  rw [h]
  exact docGet_docSet_self d "date" _

theorem ObjectId.toStr_ne_empty (o : ObjectId) : o.toStr ≠ "" := by
  intro h
  have hlen : (ObjectId.toStr o).length = 0 := by rw [h]; rfl
  rw [ObjectId.toStr] at hlen
  simp [String.length] at hlen

/-! ### Shapes of validation failures -/

theorem reqStr_error (raw : Doc) (f : String) (e : ApiError) (h : reqStr raw f = .error e) :
    ∃ m, e = .validationError f m := by
  unfold reqStr at h
  repeat' split at h
  all_goals first
    | exact ⟨_, (Except.error.inj h).symm⟩
    | exact absurd h (by simp)

theorem optStr_error (raw : Doc) (f : String) (e : ApiError) (h : optStr raw f = .error e) :
    ∃ m, e = .validationError f m := by
  unfold optStr at h
  repeat' split at h
  all_goals first
    | exact ⟨_, (Except.error.inj h).symm⟩
    | exact absurd h (by simp)

theorem optDate_error (raw : Doc) (f : String) (e : ApiError) (h : optDate raw f = .error e) :
    ∃ m, e = .validationError f m := by
  unfold optDate at h
  repeat' split at h
  all_goals first
    | exact ⟨_, (Except.error.inj h).symm⟩
    | exact absurd h (by simp)

theorem reqFloatGe_error (raw : Doc) (f : String) (lo : Rat) (e : ApiError)
    (h : reqFloatGe raw f lo = .error e) : ∃ m, e = .validationError f m := by
  unfold reqFloatGe at h
  repeat' split at h
  all_goals first
    | exact ⟨_, (Except.error.inj h).symm⟩
    | exact absurd h (by simp)

theorem reqIntRange_error (raw : Doc) (f : String) (lo hi : Int) (e : ApiError)
    (h : reqIntRange raw f lo hi = .error e) : ∃ m, e = .validationError f m := by
  unfold reqIntRange at h
  repeat' split at h
  all_goals first
    | exact ⟨_, (Except.error.inj h).symm⟩
    | exact absurd h (by simp)

theorem reqIntRange_out_of_range (raw : Doc) (f : String) (lo hi : Int) (n : Int)
    (hd : docGet raw f = some (.vInt n)) (hn : n < lo ∨ hi < n) :
    ∃ m, reqIntRange raw f lo hi = .error (.validationError f m) := by
  simp only [reqIntRange, hd]
  by_cases h1 : n < lo
  · rw [if_pos h1]; exact ⟨_, rfl⟩
  · rw [if_neg h1, if_pos (hn.resolve_left h1)]; exact ⟨_, rfl⟩

theorem reqFloatGe_below (raw : Doc) (f : String) (lo : Rat) (v : Value) (q : Rat)
    (hd : docGet raw f = some v) (hv : valueAsNum v = some q) (hq : q < lo) :
    reqFloatGe raw f lo = .error (.validationError f
      "Input should be greater than or equal to the bound") := by
  simp only [reqFloatGe, hd, hv, if_pos hq]

/-! ### Reduction of the validation chains -/

@[simp] theorem exceptApi_bind_ok {α β : Type} (a : α) (f : α → Except ApiError β) :
    (Except.ok a >>= f) = f a := rfl

@[simp] theorem exceptApi_bind_error {α β : Type} (e : ApiError) (f : α → Except ApiError β) :
    ((Except.error e : Except ApiError α) >>= f) = .error e := rfl

@[simp] theorem exceptApi_pure {α : Type} (a : α) :
    (pure a : Except ApiError α) = .ok a := rfl

theorem expenseValidate_error_of_amount (raw : Doc) (m0 : String)
    (ha : reqFloatGe raw "amount" 0 = .error (.validationError "amount" m0)) :
    ∃ f m, ExpenseIn.validate raw = .error (ApiError.validationError f m) := by
  cases ht : reqStr raw "title" with
  | error e =>
    obtain ⟨mc, hmc⟩ := reqStr_error raw "title" e ht
    exact ⟨"title", mc, by rw [← hmc]; simp [ExpenseIn.validate, ht]⟩
  | ok ti => exact ⟨"amount", m0, by simp [ExpenseIn.validate, ht, ha]⟩

theorem budgetValidate_error_of_month (raw : Doc) (m0 : String)
    (hm : reqIntRange raw "month" 1 12 = .error (.validationError "month" m0)) :
    ∃ f m, BudgetIn.validate raw = .error (ApiError.validationError f m) := by
  cases hc : optStr raw "category_id" with
  | error e =>
    obtain ⟨mc, hmc⟩ := optStr_error raw "category_id" e hc
    exact ⟨"category_id", mc, by rw [← hmc]; simp [BudgetIn.validate, hc]⟩
  | ok cid => exact ⟨"month", m0, by simp [BudgetIn.validate, hc, hm]⟩

theorem budgetValidate_error_of_year (raw : Doc) (m0 : String)
    (hy : reqIntRange raw "year" 2000 2100 = .error (.validationError "year" m0)) :
    ∃ f m, BudgetIn.validate raw = .error (ApiError.validationError f m) := by
  cases hc : optStr raw "category_id" with
  | error e =>
    obtain ⟨mc, hmc⟩ := optStr_error raw "category_id" e hc
    exact ⟨"category_id", mc, by rw [← hmc]; simp [BudgetIn.validate, hc]⟩
  | ok cid =>
    cases hm : reqIntRange raw "month" 1 12 with
    | error e =>
      obtain ⟨mc, hmc⟩ := reqIntRange_error raw "month" 1 12 e hm
      exact ⟨"month", mc, by rw [← hmc]; simp [BudgetIn.validate, hc, hm]⟩
    | ok mo => exact ⟨"year", m0, by simp [BudgetIn.validate, hc, hm, hy]⟩

theorem budgetValidate_error_of_limit (raw : Doc) (m0 : String)
    (hl : reqFloatGe raw "limit" 0 = .error (.validationError "limit" m0)) :
    ∃ f m, BudgetIn.validate raw = .error (ApiError.validationError f m) := by
  cases hc : optStr raw "category_id" with
  | error e =>
    obtain ⟨mc, hmc⟩ := optStr_error raw "category_id" e hc
    exact ⟨"category_id", mc, by rw [← hmc]; simp [BudgetIn.validate, hc]⟩
  | ok cid =>
    cases hm : reqIntRange raw "month" 1 12 with
    | error e =>
      obtain ⟨mc, hmc⟩ := reqIntRange_error raw "month" 1 12 e hm
      exact ⟨"month", mc, by rw [← hmc]; simp [BudgetIn.validate, hc, hm]⟩
    | ok mo =>
      cases hy : reqIntRange raw "year" 2000 2100 with
      | error e =>
        obtain ⟨mc, hmc⟩ := reqIntRange_error raw "year" 2000 2100 e hy
        exact ⟨"year", mc, by rw [← hmc]; simp [BudgetIn.validate, hc, hm, hy]⟩
      | ok yr => exact ⟨"limit", m0, by simp [BudgetIn.validate, hc, hm, hy, hl]⟩

theorem postBudgets_of_validate_error (db : Option Store) (raw : Doc) (e : ApiError)
    (h : BudgetIn.validate raw = .error e) : postBudgets db raw = .error e := by
  simp [postBudgets, h]

theorem postExpenses_of_validate_error (db : Option Store) (raw : Doc) (now : Datetime)
    (e : ApiError) (h : ExpenseIn.validate raw = .error e) :
    postExpenses db raw now = .error e := by
  simp [postExpenses, h]

/-! ### List-endpoint reductions -/

theorem get_documents_nofilter (s : Store) (c : String) :
    get_documents s c [] none = s.getColl c := by
  simp [get_documents, matchesFilter]

theorem mem_get_documents (s : Store) (c : String) (filt : Doc) (lim : Option Nat)
    (d : Doc) (h : d ∈ get_documents s c filt lim) : d ∈ s.getColl c := by
  unfold get_documents at h
  cases lim with
  | none => exact List.mem_of_mem_filter h
  | some n => exact List.mem_of_mem_filter (List.take_subset n _ h)

theorem list_categories_ok (s : Store) :
    list_categories (some s) = .ok ((s.getColl "category").map stringifyId) := by
  simp [list_categories, ensure_db, get_documents_nofilter]

theorem list_expenses_ok (s : Store) (lim : Option Nat) :
    list_expenses (some s) lim =
      .ok ((get_documents s "expense" [] lim).map (fun it => isoDate (stringifyId it))) := by
  simp [list_expenses, ensure_db]

theorem list_expenses_mem_inv (s : Store) (lim : Option Nat) (out : List Doc)
    (h : list_expenses (some s) lim = .ok out) (d' : Doc) (hd : d' ∈ out) :
    ∃ d ∈ s.getColl "expense", d' = isoDate (stringifyId d) := by
  rw [list_expenses_ok s lim] at h
  obtain rfl : _ = out := Except.ok.inj h
  obtain ⟨d, hmem, rfl⟩ := List.mem_map.mp hd
  exact ⟨d, mem_get_documents s "expense" [] lim d hmem, rfl⟩

theorem list_budgets_filter_eq (s : Store) (m y : Option Int) (c : Option String) :
    list_budgets (some s) m y c =
      .ok (((s.getColl "budget").filter (budgetMatches m y c)).map stringifyId) := by
  unfold list_budgets ensure_db get_documents
  simp only [exceptApi_bind_ok, exceptApi_pure, Except.ok.injEq]
  cases m <;> cases y <;> cases c <;>
    · refine congrArg _ (List.filter_congr fun d _ => ?_)
      simp [matchesFilter, budgetMatches, docSet]

theorem list_budgets_mem_inv (s : Store) (m y : Option Int) (c : Option String)
    (out : List Doc) (h : list_budgets (some s) m y c = .ok out) (d' : Doc) (hd : d' ∈ out) :
    ∃ d ∈ s.getColl "budget", d' = stringifyId d := by
  rw [list_budgets_filter_eq s m y c] at h
  obtain rfl : _ = out := Except.ok.inj h
  obtain ⟨d, hmem, rfl⟩ := List.mem_map.mp hd
  exact ⟨d, List.mem_of_mem_filter hmem, rfl⟩

theorem list_categories_mem_inv (s : Store) (out : List Doc)
    (h : list_categories (some s) = .ok out) (d' : Doc) (hd : d' ∈ out) :
    ∃ d ∈ s.getColl "category", d' = stringifyId d := by
  rw [list_categories_ok s] at h
  obtain rfl : _ = out := Except.ok.inj h
  obtain ⟨d, hmem, rfl⟩ := List.mem_map.mp hd
  exact ⟨d, hmem, rfl⟩

/-! ### Claim theorems -/

/-- C5: when the database handle was never established, every create and
list operation on every collection fails with the same
`storeUnavailable` server error (a 500 `HTTPException`), uniformly and
before any store interaction can happen. -/
theorem unconfigured_store_rejects_uniformly :
    (∀ p : CategoryIn, create_category none p = .error storeUnavailable) ∧
    (list_categories none = .error storeUnavailable) ∧
    (∀ (p : ExpenseIn) (now : Datetime), create_expense none p now = .error storeUnavailable) ∧
    (∀ lim : Option Nat, list_expenses none lim = .error storeUnavailable) ∧
    (∀ p : BudgetIn, create_budget none p = .error storeUnavailable) ∧
    (∀ (m y : Option Int) (c : Option String),
      list_budgets none m y c = .error storeUnavailable) :=
  ⟨fun _ => rfl, rfl, fun _ _ => rfl, fun _ => rfl, fun _ => rfl, fun _ _ _ => rfl⟩

/-- C1: refuted on the code — `BudgetIn` in `main.py` has no `period`
field, so the document persisted by `POST /api/budgets` and the returned
record carry no `period` field at all (`schemas.py` declares
`Budget.period` fixed to "month", but `create_budget` never uses that
model). Evaluated at the input `{month: 3, year: 2024, limit: 100}` on
an empty store. -/
theorem create_budget_period_field_absent :
    ∃ resp st, postBudgets (some ⟨0, []⟩)
        [("month", Value.vInt 3), ("year", Value.vInt 2024), ("limit", Value.vNum 100)] =
      .ok (resp, st) ∧
    docGet resp "period" = none ∧
    st.getColl "budget" ≠ [] ∧
    ∀ d ∈ st.getColl "budget", docGet d "period" = none := by
  refine ⟨_, _, rfl, ?_, ?_, ?_⟩ <;> decide

/-- C2 counterexample: a create-category payload whose `name` is the
empty string passes validation and the category is persisted, refuting
the claim that empty text fails with a `ValidationError`. -/
theorem create_category_accepts_empty_name :
    postCategories (some ⟨0, []⟩) [("name", Value.vStr "")] =
      .ok ([("_id", .vObjectId ⟨0⟩), ("name", .vStr ""), ("color", .vNull)],
        ⟨1, [("category", [[("name", .vStr ""), ("color", .vNull),
          ("_id", .vObjectId ⟨0⟩)]])]⟩) := by
  rfl

/-- C2 amended: a create-category input is accepted when `name` is
present as text — empty text included, which is persisted rather than
rejected; validation fails with a `ValidationError` when `name` is
missing. -/
theorem create_category_requires_name_presence_only :
    (∀ (db : Option Store) (raw : Doc), docGet raw "name" = none →
      postCategories db raw = .error (ApiError.validationError "name" "Field required")) ∧
    (∀ s : Store, ∃ resp st,
      postCategories (some s) [("name", Value.vStr "")] = .ok (resp, st) ∧
      docGet resp "name" = some (Value.vStr "") ∧
      st.getColl "category" = s.getColl "category" ++
        [[("name", Value.vStr ""), ("color", Value.vNull),
          ("_id", Value.vObjectId ⟨s.nextOid⟩)]]) := by
  constructor
  · intro db raw h
    simp [postCategories, CategoryIn.validate, reqStr, h]
  · intro s
    refine ⟨_, _, rfl, rfl, ?_⟩
    simp only [Store.getColl]
    exact (collGet_collSet_self _ _ _).trans rfl

/-- C2 amended, witness: a payload with no `name` key is rejected with a
field-level `ValidationError`. -/
theorem create_category_requires_name_presence_only_witness :
    postCategories (some ⟨0, []⟩) [("color", Value.vStr "#fff")] =
      .error (ApiError.validationError "name" "Field required") :=
  create_category_requires_name_presence_only.1 (some ⟨0, []⟩)
    [("color", Value.vStr "#fff")] rfl

/-- C3: any inbound payload with a numeric field violating its declared
bound (negative expense `amount`, budget `month` outside 1–12, budget
`year` outside 2000–2100, negative budget `limit`) makes the create
endpoint fail with a `ValidationError`, for every store state — so
nothing is persisted. -/
theorem create_rejects_bound_violations :
    (∀ (db : Option Store) (raw : Doc) (now : Datetime) (v : Value) (q : Rat),
      docGet raw "amount" = some v → valueAsNum v = some q → q < 0 →
      ∃ f m, postExpenses db raw now = .error (ApiError.validationError f m)) ∧
    (∀ (db : Option Store) (raw : Doc) (n : Int),
      docGet raw "month" = some (Value.vInt n) → (n < 1 ∨ 12 < n) →
      ∃ f m, postBudgets db raw = .error (ApiError.validationError f m)) ∧
    (∀ (db : Option Store) (raw : Doc) (n : Int),
      docGet raw "year" = some (Value.vInt n) → (n < 2000 ∨ 2100 < n) →
      ∃ f m, postBudgets db raw = .error (ApiError.validationError f m)) ∧
    (∀ (db : Option Store) (raw : Doc) (v : Value) (q : Rat),
      docGet raw "limit" = some v → valueAsNum v = some q → q < 0 →
      ∃ f m, postBudgets db raw = .error (ApiError.validationError f m)) := by
  refine ⟨?_, ?_, ?_, ?_⟩
  · intro db raw now v q hd hv hq
    obtain ⟨f, m, hval⟩ := expenseValidate_error_of_amount raw _
      (reqFloatGe_below raw "amount" 0 v q hd hv hq)
    exact ⟨f, m, postExpenses_of_validate_error db raw now _ hval⟩
  · intro db raw n hd hn
    obtain ⟨m0, hstep⟩ := reqIntRange_out_of_range raw "month" 1 12 n hd hn
    obtain ⟨f, m, hval⟩ := budgetValidate_error_of_month raw m0 hstep
    exact ⟨f, m, postBudgets_of_validate_error db raw _ hval⟩
  · intro db raw n hd hn
    obtain ⟨m0, hstep⟩ := reqIntRange_out_of_range raw "year" 2000 2100 n hd hn
    obtain ⟨f, m, hval⟩ := budgetValidate_error_of_year raw m0 hstep
    exact ⟨f, m, postBudgets_of_validate_error db raw _ hval⟩
  · intro db raw v q hd hv hq
    obtain ⟨f, m, hval⟩ := budgetValidate_error_of_limit raw _
      (reqFloatGe_below raw "limit" 0 v q hd hv hq)
    exact ⟨f, m, postBudgets_of_validate_error db raw _ hval⟩

/-- C3 witness: each of the four bound violations, instantiated at a
concrete payload, fails with a `ValidationError`. -/
theorem create_rejects_bound_violations_witness :
    (∃ f m, postExpenses (some ⟨0, []⟩)
        [("title", Value.vStr "x"), ("amount", Value.vNum (-1))]
        ⟨2024, 1, 1, 0, 0, 0, 0⟩ = .error (ApiError.validationError f m)) ∧
    (∃ f m, postBudgets (some ⟨0, []⟩)
        [("month", Value.vInt 0), ("year", Value.vInt 2024), ("limit", Value.vNum 1)] =
      .error (ApiError.validationError f m)) ∧
    (∃ f m, postBudgets (some ⟨0, []⟩)
        [("month", Value.vInt 3), ("year", Value.vInt 1999), ("limit", Value.vNum 1)] =
      .error (ApiError.validationError f m)) ∧
    (∃ f m, postBudgets (some ⟨0, []⟩)
        [("month", Value.vInt 3), ("year", Value.vInt 2024), ("limit", Value.vNum (-1))] =
      .error (ApiError.validationError f m)) :=
  ⟨create_rejects_bound_violations.1 _ _ _ _ (-1) rfl rfl (by decide),
   create_rejects_bound_violations.2.1 _ _ 0 rfl (Or.inl (by decide)),
   create_rejects_bound_violations.2.2.1 _ _ 1999 rfl (Or.inl (by decide)),
   create_rejects_bound_violations.2.2.2 _ _ _ (-1) rfl rfl (by decide)⟩

/-- C6: list-budgets returns exactly the stored budgets matching every
supplied filter parameter by equality; omitted parameters impose no
constraint, and unmatched budgets are excluded. -/
theorem list_budgets_exact_match (s : Store) (m y : Option Int) (c : Option String) :
    list_budgets (some s) m y c =
      .ok (((s.getColl "budget").filter (budgetMatches m y c)).map stringifyId) ∧
    ∀ out, list_budgets (some s) m y c = .ok out →
      ∀ d', d' ∈ out ↔
        ∃ d ∈ s.getColl "budget", budgetMatches m y c d = true ∧ d' = stringifyId d := by
  refine ⟨list_budgets_filter_eq s m y c, fun out hout d' => ?_⟩
  rw [list_budgets_filter_eq s m y c] at hout
  obtain rfl : _ = out := Except.ok.inj hout
  constructor
  · intro hd
    obtain ⟨d, hdf, rfl⟩ := List.mem_map.mp hd
    exact ⟨d, List.mem_of_mem_filter hdf, List.of_mem_filter hdf, rfl⟩
  · rintro ⟨d, hmem, hmatch, rfl⟩
    exact List.mem_map_of_mem _ (List.mem_filter.mpr ⟨hmem, hmatch⟩)

/-- C6 witness: with one matching and one unmatched stored budget, the
filtered listing contains exactly the normalization of the matching one. -/
theorem list_budgets_exact_match_witness :
    (stringifyId [("month", Value.vInt 3), ("year", Value.vInt 2024),
        ("_id", Value.vObjectId ⟨0⟩)] ∈
      (((Store.mk 2 [("budget",
          [[("month", Value.vInt 3), ("year", Value.vInt 2024), ("_id", Value.vObjectId ⟨0⟩)],
           [("month", Value.vInt 4), ("year", Value.vInt 2024),
            ("_id", Value.vObjectId ⟨1⟩)]])]).getColl "budget").filter
        (budgetMatches (some 3) (some 2024) none)).map stringifyId) :=
  ((list_budgets_exact_match
      (Store.mk 2 [("budget",
        [[("month", Value.vInt 3), ("year", Value.vInt 2024), ("_id", Value.vObjectId ⟨0⟩)],
         [("month", Value.vInt 4), ("year", Value.vInt 2024), ("_id", Value.vObjectId ⟨1⟩)]])])
      (some 3) (some 2024) none).2 _ rfl _).mpr
    ⟨[("month", Value.vInt 3), ("year", Value.vInt 2024), ("_id", Value.vObjectId ⟨0⟩)],
     by decide, by decide, rfl⟩

/-! ### Date defaulting (C4 support) -/

theorem expenseValidate_date_none (raw : Doc) (p : ExpenseIn)
    (h : ExpenseIn.validate raw = .ok p) (hd : docGet raw "date" = none) :
    p.date = none := by
  have h4 : optDate raw "date" = .ok none := by unfold optDate; rw [hd]
  unfold ExpenseIn.validate at h
  cases h1 : reqStr raw "title" with
  | error e => simp only [h1, exceptApi_bind_error] at h; exact absurd h (by simp)
  | ok ti =>
    simp only [h1, exceptApi_bind_ok] at h
    cases h2 : reqFloatGe raw "amount" 0 with
    | error e => simp only [h2, exceptApi_bind_error] at h; exact absurd h (by simp)
    | ok am =>
      simp only [h2, exceptApi_bind_ok] at h
      cases h3 : optStr raw "category_id" with
      | error e => simp only [h3, exceptApi_bind_error] at h; exact absurd h (by simp)
      | ok cid =>
        simp only [h3, exceptApi_bind_ok, h4] at h
        cases h5 : optStr raw "vendor" with
        | error e => simp only [h5, exceptApi_bind_error] at h; exact absurd h (by simp)
        | ok ven =>
          simp only [h5, exceptApi_bind_ok] at h
          cases h6 : optStr raw "payment_method" with
          | error e => simp only [h6, exceptApi_bind_error] at h; exact absurd h (by simp)
          | ok pm =>
            simp only [h6, exceptApi_bind_ok] at h
            cases h7 : optStr raw "notes" with
            | error e => simp only [h7, exceptApi_bind_error] at h; exact absurd h (by simp)
            | ok nts =>
              simp only [h7, exceptApi_bind_ok, exceptApi_pure] at h
              obtain rfl := (Except.ok.inj h).symm
              rfl

theorem create_expense_none_date_eq (s : Store) (ti : String) (am : Rat)
    (cid ven pm nts : Option String) (now : Datetime) :
    create_expense (some s) ⟨ti, am, cid, none, ven, pm, nts⟩ now =
      .ok (("_id", Value.vObjectId ⟨s.nextOid⟩) ::
            [("title", Value.vStr ti), ("amount", Value.vNum am),
             ("category_id", optValStr cid), ("date", Value.vDatetime now),
             ("vendor", optValStr ven), ("payment_method", optValStr pm),
             ("notes", optValStr nts)],
           (create_document s "expense"
             [("title", Value.vStr ti), ("amount", Value.vNum am),
              ("category_id", optValStr cid), ("date", Value.vDatetime now),
              ("vendor", optValStr ven), ("payment_method", optValStr pm),
              ("notes", optValStr nts)]).2) := rfl

/-- C4: an expense payload that omits `date` is stored and returned with
`date` equal to the current UTC timestamp taken when the handler
validates the payload (the `now` standing for `datetime.utcnow()`), so
the created expense's `date` is always present and non-null. -/
theorem create_expense_defaults_date (s : Store) (raw : Doc) (now : Datetime)
    (resp : Doc) (st : Store)
    (hd : docGet raw "date" = none)
    (h : postExpenses (some s) raw now = .ok (resp, st)) :
    docGet resp "date" = some (Value.vDatetime now) ∧
    ∃ d, st.getColl "expense" = s.getColl "expense" ++ [d] ∧
      docGet d "date" = some (Value.vDatetime now) := by
  cases hv : ExpenseIn.validate raw with
  | error e =>
    rw [postExpenses_of_validate_error (some s) raw now e hv] at h
    exact absurd h (by simp)
  | ok p =>
    obtain ⟨ti, am, cid, dt, ven, pm, nts⟩ := p
    have hdt : dt = none := expenseValidate_date_none raw _ hv hd
    subst hdt
    simp only [postExpenses, hv, exceptApi_bind_ok] at h
    rw [create_expense_none_date_eq] at h
    have hpair := Except.ok.inj h
    rw [Prod.mk.injEq] at hpair
    obtain ⟨rfl, rfl⟩ := hpair
    exact ⟨rfl, _, create_document_getColl s "expense" _, rfl⟩

/-- C4 witness: `{"title": "AWS bill", "amount": 120}` with no `date`,
created at a fixed clock reading, carries that timestamp in both the
response and the stored document. -/
theorem create_expense_defaults_date_witness :
    docGet [("_id", Value.vObjectId ⟨0⟩), ("title", Value.vStr "AWS bill"),
        ("amount", Value.vNum 120), ("category_id", Value.vNull),
        ("date", Value.vDatetime ⟨2024, 3, 1, 12, 0, 0, 0⟩), ("vendor", Value.vNull),
        ("payment_method", Value.vNull), ("notes", Value.vNull)] "date" =
      some (Value.vDatetime ⟨2024, 3, 1, 12, 0, 0, 0⟩) ∧
    ∃ d, (Store.mk 1 [("expense",
        [[("title", Value.vStr "AWS bill"), ("amount", Value.vNum 120),
          ("category_id", Value.vNull),
          ("date", Value.vDatetime ⟨2024, 3, 1, 12, 0, 0, 0⟩),
          ("vendor", Value.vNull), ("payment_method", Value.vNull),
          ("notes", Value.vNull), ("_id", Value.vObjectId ⟨0⟩)]])]).getColl "expense" =
      (Store.mk 0 []).getColl "expense" ++ [d] ∧
      docGet d "date" = some (Value.vDatetime ⟨2024, 3, 1, 12, 0, 0, 0⟩) :=
  create_expense_defaults_date ⟨0, []⟩
    [("title", Value.vStr "AWS bill"), ("amount", Value.vNum 120)]
    ⟨2024, 3, 1, 12, 0, 0, 0⟩ _ _ rfl rfl

/-! ### Normalization properties of list responses (C7, C10 support) -/

theorem stringifyId_id_prop (d : Doc) :
    (∀ o, docGet d "_id" = some (Value.vObjectId o) →
      docGet (stringifyId d) "_id" = some (Value.vStr o.toStr)) ∧
    (∀ v, docGet (stringifyId d) "_id" = some v → ∃ str, v = Value.vStr str) := by
  constructor
  · intro o h
    rw [docGet_stringifyId_id d _ h]
    rfl
  · intro v h
    cases hd : docGet d "_id" with
    | none =>
      rw [stringifyId_of_no_id d hd, hd] at h
      cases h
    | some v0 =>
      rw [docGet_stringifyId_id d v0 hd] at h
      exact ⟨_, (Option.some.inj h).symm⟩

/-- C7: every document returned by a list endpoint is the normalization,
applied after fetch, of a stored document: the store-assigned `_id` is
rendered as its canonical string form (never as an opaque `ObjectId`
value), and a stored datetime `date` in an expense document is rendered
as ISO-8601 text. -/
theorem list_normalizes_ids_and_dates (s : Store) :
    (∀ out, list_categories (some s) = .ok out → ∀ d' ∈ out,
      ∃ d ∈ s.getColl "category", d' = stringifyId d ∧
        (∀ o, docGet d "_id" = some (Value.vObjectId o) →
          docGet d' "_id" = some (Value.vStr o.toStr)) ∧
        (∀ v, docGet d' "_id" = some v → ∃ str, v = Value.vStr str)) ∧
    (∀ lim out, list_expenses (some s) lim = .ok out → ∀ d' ∈ out,
      ∃ d ∈ s.getColl "expense", d' = isoDate (stringifyId d) ∧
        (∀ o, docGet d "_id" = some (Value.vObjectId o) →
          docGet d' "_id" = some (Value.vStr o.toStr)) ∧
        (∀ v, docGet d' "_id" = some v → ∃ str, v = Value.vStr str) ∧
        (∀ t, docGet d "date" = some (Value.vDatetime t) →
          docGet d' "date" = some (Value.vStr t.isoformat))) ∧
    (∀ m y c out, list_budgets (some s) m y c = .ok out → ∀ d' ∈ out,
      ∃ d ∈ s.getColl "budget", d' = stringifyId d ∧
        (∀ o, docGet d "_id" = some (Value.vObjectId o) →
          docGet d' "_id" = some (Value.vStr o.toStr)) ∧
        (∀ v, docGet d' "_id" = some v → ∃ str, v = Value.vStr str)) := by
  refine ⟨?_, ?_, ?_⟩
  · intro out hout d' hd'
    obtain ⟨d, hmem, rfl⟩ := list_categories_mem_inv s out hout d' hd'
    exact ⟨d, hmem, rfl, (stringifyId_id_prop d).1, (stringifyId_id_prop d).2⟩
  · intro lim out hout d' hd'
    obtain ⟨d, hmem, rfl⟩ := list_expenses_mem_inv s lim out hout d' hd'
    refine ⟨d, hmem, rfl, ?_, ?_, ?_⟩
    · intro o h
      rw [docGet_isoDate_ne _ "_id" (by decide)]
      exact (stringifyId_id_prop d).1 o h
    · intro v h
      rw [docGet_isoDate_ne _ "_id" (by decide)] at h
      exact (stringifyId_id_prop d).2 v h
    · intro t h
      refine docGet_isoDate_date _ t ?_
      rw [docGet_stringifyId_ne d "date" (by decide)]
      exact h
  · intro m y c out hout d' hd'
    obtain ⟨d, hmem, rfl⟩ := list_budgets_mem_inv s m y c out hout d' hd'
    exact ⟨d, hmem, rfl, (stringifyId_id_prop d).1, (stringifyId_id_prop d).2⟩

/-- C7 witness: a stored expense with an `ObjectId` and a datetime is
listed with the identifier stringified and the date in ISO-8601 text. -/
theorem list_normalizes_ids_and_dates_witness :
    ∃ d ∈ (Store.mk 6 [("expense",
        [[("title", Value.vStr "t"),
          ("date", Value.vDatetime ⟨2024, 3, 1, 12, 0, 0, 0⟩),
          ("_id", Value.vObjectId ⟨5⟩)]])]).getColl "expense",
      isoDate (stringifyId [("title", Value.vStr "t"),
          ("date", Value.vDatetime ⟨2024, 3, 1, 12, 0, 0, 0⟩),
          ("_id", Value.vObjectId ⟨5⟩)]) = isoDate (stringifyId d) ∧
      (∀ o, docGet d "_id" = some (Value.vObjectId o) →
        docGet (isoDate (stringifyId [("title", Value.vStr "t"),
          ("date", Value.vDatetime ⟨2024, 3, 1, 12, 0, 0, 0⟩),
          ("_id", Value.vObjectId ⟨5⟩)])) "_id" = some (Value.vStr o.toStr)) ∧
      (∀ v, docGet (isoDate (stringifyId [("title", Value.vStr "t"),
          ("date", Value.vDatetime ⟨2024, 3, 1, 12, 0, 0, 0⟩),
          ("_id", Value.vObjectId ⟨5⟩)])) "_id" = some v → ∃ str, v = Value.vStr str) ∧
      (∀ t, docGet d "date" = some (Value.vDatetime t) →
        docGet (isoDate (stringifyId [("title", Value.vStr "t"),
          ("date", Value.vDatetime ⟨2024, 3, 1, 12, 0, 0, 0⟩),
          ("_id", Value.vObjectId ⟨5⟩)])) "date" = some (Value.vStr t.isoformat)) :=
  (list_normalizes_ids_and_dates (Store.mk 6 [("expense",
      [[("title", Value.vStr "t"),
        ("date", Value.vDatetime ⟨2024, 3, 1, 12, 0, 0, 0⟩),
        ("_id", Value.vObjectId ⟨5⟩)]])])).2.1 none _ rfl _
    (List.mem_singleton.mpr rfl)

/-- C10: a list response preserves every stored field other than the
normalized ones — for each returned document there is a fetched stored
document agreeing with it on every key except `_id` (and, for expense
documents, except `date`). -/
theorem list_preserves_unnormalized_fields (s : Store) :
    (∀ out, list_categories (some s) = .ok out → ∀ d' ∈ out,
      ∃ d ∈ s.getColl "category", ∀ k, k ≠ "_id" → docGet d' k = docGet d k) ∧
    (∀ lim out, list_expenses (some s) lim = .ok out → ∀ d' ∈ out,
      ∃ d ∈ s.getColl "expense",
        ∀ k, k ≠ "_id" → k ≠ "date" → docGet d' k = docGet d k) ∧
    (∀ m y c out, list_budgets (some s) m y c = .ok out → ∀ d' ∈ out,
      ∃ d ∈ s.getColl "budget", ∀ k, k ≠ "_id" → docGet d' k = docGet d k) := by
  refine ⟨?_, ?_, ?_⟩
  · intro out hout d' hd'
    obtain ⟨d, hmem, rfl⟩ := list_categories_mem_inv s out hout d' hd'
    exact ⟨d, hmem, fun k hk => docGet_stringifyId_ne d k hk⟩
  · intro lim out hout d' hd'
    obtain ⟨d, hmem, rfl⟩ := list_expenses_mem_inv s lim out hout d' hd'
    refine ⟨d, hmem, fun k hk1 hk2 => ?_⟩
    rw [docGet_isoDate_ne _ k hk2, docGet_stringifyId_ne d k hk1]
  · intro m y c out hout d' hd'
    obtain ⟨d, hmem, rfl⟩ := list_budgets_mem_inv s m y c out hout d' hd'
    exact ⟨d, hmem, fun k hk => docGet_stringifyId_ne d k hk⟩

/-- C10 witness: for a concrete stored expense, the listed document
agrees with the stored one on every key other than `_id` and `date`. -/
theorem list_preserves_unnormalized_fields_witness :
    ∃ d ∈ (Store.mk 6 [("expense",
        [[("title", Value.vStr "t"), ("amount", Value.vNum 7),
          ("date", Value.vDatetime ⟨2024, 3, 1, 12, 0, 0, 0⟩),
          ("_id", Value.vObjectId ⟨5⟩)]])]).getColl "expense",
      ∀ k, k ≠ "_id" → k ≠ "date" →
        docGet (isoDate (stringifyId [("title", Value.vStr "t"), ("amount", Value.vNum 7),
          ("date", Value.vDatetime ⟨2024, 3, 1, 12, 0, 0, 0⟩),
          ("_id", Value.vObjectId ⟨5⟩)])) k = docGet d k :=
  (list_preserves_unnormalized_fields (Store.mk 6 [("expense",
      [[("title", Value.vStr "t"), ("amount", Value.vNum 7),
        ("date", Value.vDatetime ⟨2024, 3, 1, 12, 0, 0, 0⟩),
        ("_id", Value.vObjectId ⟨5⟩)]])])).2.1 none _ rfl _
    (List.mem_singleton.mpr rfl)

/-! ### Create-then-list round trip (C8) -/

theorem create_expense_some_date_eq (s : Store) (ti : String) (am : Rat)
    (cid ven pm nts : Option String) (t now : Datetime) :
    create_expense (some s) ⟨ti, am, cid, some t, ven, pm, nts⟩ now =
      .ok (("_id", Value.vObjectId ⟨s.nextOid⟩) ::
            [("title", Value.vStr ti), ("amount", Value.vNum am),
             ("category_id", optValStr cid), ("date", Value.vDatetime t),
             ("vendor", optValStr ven), ("payment_method", optValStr pm),
             ("notes", optValStr nts)],
           (create_document s "expense"
             [("title", Value.vStr ti), ("amount", Value.vNum am),
              ("category_id", optValStr cid), ("date", Value.vDatetime t),
              ("vendor", optValStr ven), ("payment_method", optValStr pm),
              ("notes", optValStr nts)]).2) := rfl

/-- C8: for every validated Category, Expense, or Budget input, `create`
followed by `list` (with a filter matching the created record's
distinguishing fields) yields a record whose fields equal the input
(timestamps in ISO form), plus a non-empty store-assigned string
identifier that was not present in the input. -/
theorem create_then_list_roundtrip :
    (∀ (s : Store) (p : CategoryIn) (resp : Doc) (st : Store),
      create_category (some s) p = .ok (resp, st) →
      ∃ out, list_categories (some st) = .ok out ∧
      ∃ r ∈ out, docGet r "name" = some (Value.vStr p.name) ∧
        docGet r "color" = some (optValStr p.color) ∧
        ∃ idStr, docGet r "_id" = some (Value.vStr idStr) ∧ idStr ≠ "" ∧
          docGet p.model_dump "_id" = none) ∧
    (∀ (s : Store) (p : ExpenseIn) (now : Datetime) (resp : Doc) (st : Store),
      create_expense (some s) p now = .ok (resp, st) →
      ∃ out, list_expenses (some st) none = .ok out ∧
      ∃ r ∈ out, docGet r "title" = some (Value.vStr p.title) ∧
        docGet r "amount" = some (Value.vNum p.amount) ∧
        docGet r "category_id" = some (optValStr p.category_id) ∧
        docGet r "vendor" = some (optValStr p.vendor) ∧
        docGet r "payment_method" = some (optValStr p.payment_method) ∧
        docGet r "notes" = some (optValStr p.notes) ∧
        docGet r "date" = some (Value.vStr
          (match p.date with | some t => t.isoformat | none => now.isoformat)) ∧
        ∃ idStr, docGet r "_id" = some (Value.vStr idStr) ∧ idStr ≠ "" ∧
          docGet p.model_dump "_id" = none) ∧
    (∀ (s : Store) (p : BudgetIn) (resp : Doc) (st : Store),
      create_budget (some s) p = .ok (resp, st) →
      ∃ out, list_budgets (some st) (some p.month) (some p.year) p.category_id = .ok out ∧
      ∃ r ∈ out, docGet r "month" = some (Value.vInt p.month) ∧
        docGet r "year" = some (Value.vInt p.year) ∧
        docGet r "limit" = some (Value.vNum p.limit) ∧
        docGet r "category_id" = some (optValStr p.category_id) ∧
        ∃ idStr, docGet r "_id" = some (Value.vStr idStr) ∧ idStr ≠ "" ∧
          docGet p.model_dump "_id" = none) := by
  refine ⟨?_, ?_, ?_⟩
  · intro s p resp st h
    have hcc : create_category (some s) p = .ok
        (("_id", Value.vObjectId ⟨s.nextOid⟩) :: p.model_dump,
         (create_document s "category" p.model_dump).2) := rfl
    rw [hcc] at h
    have hp := Except.ok.inj h
    rw [Prod.mk.injEq] at hp
    obtain ⟨rfl, rfl⟩ := hp
    refine ⟨_, list_categories_ok _,
      stringifyId (docSet p.model_dump "_id" (Value.vObjectId ⟨s.nextOid⟩)), ?_,
      rfl, rfl, _, rfl, ObjectId.toStr_ne_empty _, rfl⟩
    rw [create_document_getColl]
    exact List.mem_map_of_mem _ (List.mem_append_right _ (List.mem_singleton.mpr rfl))
  · intro s p now resp st h
    obtain ⟨ti, am, cid, dt, ven, pm, nts⟩ := p
    cases dt with
    | none =>
      rw [create_expense_none_date_eq] at h
      have hp := Except.ok.inj h
      rw [Prod.mk.injEq] at hp
      obtain ⟨rfl, rfl⟩ := hp
      have hlist : list_expenses (some (create_document s "expense"
          [("title", Value.vStr ti), ("amount", Value.vNum am),
           ("category_id", optValStr cid), ("date", Value.vDatetime now),
           ("vendor", optValStr ven), ("payment_method", optValStr pm),
           ("notes", optValStr nts)]).2) none =
        .ok (((create_document s "expense"
          [("title", Value.vStr ti), ("amount", Value.vNum am),
           ("category_id", optValStr cid), ("date", Value.vDatetime now),
           ("vendor", optValStr ven), ("payment_method", optValStr pm),
           ("notes", optValStr nts)]).2.getColl "expense").map
            (fun it => isoDate (stringifyId it))) := by
        rw [list_expenses_ok, get_documents_nofilter]
      refine ⟨_, hlist,
        isoDate (stringifyId (docSet
          [("title", Value.vStr ti), ("amount", Value.vNum am),
           ("category_id", optValStr cid), ("date", Value.vDatetime now),
           ("vendor", optValStr ven), ("payment_method", optValStr pm),
           ("notes", optValStr nts)] "_id" (Value.vObjectId ⟨s.nextOid⟩))), ?_,
        rfl, rfl, rfl, rfl, rfl, rfl, rfl, _, rfl, ObjectId.toStr_ne_empty _, rfl⟩
      rw [create_document_getColl]
      exact List.mem_map_of_mem _ (List.mem_append_right _ (List.mem_singleton.mpr rfl))
    | some t =>
      rw [create_expense_some_date_eq] at h
      have hp := Except.ok.inj h
      rw [Prod.mk.injEq] at hp
      obtain ⟨rfl, rfl⟩ := hp
      have hlist : list_expenses (some (create_document s "expense"
          [("title", Value.vStr ti), ("amount", Value.vNum am),
           ("category_id", optValStr cid), ("date", Value.vDatetime t),
           ("vendor", optValStr ven), ("payment_method", optValStr pm),
           ("notes", optValStr nts)]).2) none =
        .ok (((create_document s "expense"
          [("title", Value.vStr ti), ("amount", Value.vNum am),
           ("category_id", optValStr cid), ("date", Value.vDatetime t),
           ("vendor", optValStr ven), ("payment_method", optValStr pm),
           ("notes", optValStr nts)]).2.getColl "expense").map
            (fun it => isoDate (stringifyId it))) := by
        rw [list_expenses_ok, get_documents_nofilter]
      refine ⟨_, hlist,
        isoDate (stringifyId (docSet
          [("title", Value.vStr ti), ("amount", Value.vNum am),
           ("category_id", optValStr cid), ("date", Value.vDatetime t),
           ("vendor", optValStr ven), ("payment_method", optValStr pm),
           ("notes", optValStr nts)] "_id" (Value.vObjectId ⟨s.nextOid⟩))), ?_,
        rfl, rfl, rfl, rfl, rfl, rfl, rfl, _, rfl, ObjectId.toStr_ne_empty _, rfl⟩
      rw [create_document_getColl]
      exact List.mem_map_of_mem _ (List.mem_append_right _ (List.mem_singleton.mpr rfl))
  · intro s p resp st h
    obtain ⟨cid, mo, yr, lim⟩ := p
    have hcc : create_budget (some s) ⟨cid, mo, yr, lim⟩ = .ok
        (("_id", Value.vObjectId ⟨s.nextOid⟩) :: BudgetIn.model_dump ⟨cid, mo, yr, lim⟩,
         (create_document s "budget" (BudgetIn.model_dump ⟨cid, mo, yr, lim⟩)).2) := rfl
    rw [hcc] at h
    have hp := Except.ok.inj h
    rw [Prod.mk.injEq] at hp
    obtain ⟨rfl, rfl⟩ := hp
    refine ⟨_, list_budgets_filter_eq _ (some mo) (some yr) cid,
      stringifyId (docSet (BudgetIn.model_dump ⟨cid, mo, yr, lim⟩) "_id"
        (Value.vObjectId ⟨s.nextOid⟩)), ?_,
      rfl, rfl, rfl, ?_, _, rfl, ObjectId.toStr_ne_empty _, rfl⟩
    · rw [create_document_getColl]
      refine List.mem_map_of_mem _ (List.mem_filter.mpr
        ⟨List.mem_append_right _ (List.mem_singleton.mpr rfl), ?_⟩)
      cases cid with
      | none =>
        simp only [budgetMatches, Bool.and_eq_true, decide_eq_true_eq, Bool.and_true]
        exact ⟨rfl, rfl⟩
      | some c =>
        simp only [budgetMatches, Bool.and_eq_true, decide_eq_true_eq]
        exact ⟨rfl, rfl, rfl⟩
    · cases cid <;> rfl

/-- C8 witness: creating the budget `{month: 3, year: 2024, limit: 100}`
on an empty store and listing with the matching filter returns the
record with its fields and a non-empty string identifier. -/
theorem create_then_list_roundtrip_witness :
    ∃ out, list_budgets (some (Store.mk 1 [("budget",
        [[("category_id", Value.vNull), ("month", Value.vInt 3),
          ("year", Value.vInt 2024), ("limit", Value.vNum 100),
          ("_id", Value.vObjectId ⟨0⟩)]])])) (some 3) (some 2024) none = .ok out ∧
    ∃ r ∈ out, docGet r "month" = some (Value.vInt 3) ∧
      docGet r "year" = some (Value.vInt 2024) ∧
      docGet r "limit" = some (Value.vNum 100) ∧
      docGet r "category_id" = some (optValStr none) ∧
      ∃ idStr, docGet r "_id" = some (Value.vStr idStr) ∧ idStr ≠ "" ∧
        docGet (BudgetIn.model_dump ⟨none, 3, 2024, 100⟩) "_id" = none :=
  create_then_list_roundtrip.2.2 ⟨0, []⟩ ⟨none, 3, 2024, 100⟩ _ _ rfl

/-! ### Diagnostics endpoint (C9) -/

theorem test_database_url_proj (db : Option DbHandle) (u n : Option String) :
    (test_database db u n).database_url =
      some (if envSet u then "✅ Set" else "❌ Not Set") := rfl

theorem test_database_name_proj (db : Option DbHandle) (u n : Option String) :
    (test_database db u n).database_name =
      some (if envSet n then "✅ Set" else "❌ Not Set") := rfl

/-- C9: the diagnostics endpoint reports only presence or absence of the
required configuration values — its `database_url` and `database_name`
fields are always one of the two fixed status strings (never the
configured contents), and any two runs with both values present report
identical configuration fields. -/
theorem test_database_reports_presence_only :
    (∀ (db : Option DbHandle) (envUrl envName : Option String),
      ((test_database db envUrl envName).database_url = some "✅ Set" ∨
        (test_database db envUrl envName).database_url = some "❌ Not Set") ∧
      ((test_database db envUrl envName).database_name = some "✅ Set" ∨
        (test_database db envUrl envName).database_name = some "❌ Not Set")) ∧
    (∀ (db1 db2 : Option DbHandle) (u1 u2 n1 n2 : Option String),
      envSet u1 = true → envSet u2 = true → envSet n1 = true → envSet n2 = true →
      (test_database db1 u1 n1).database_url = (test_database db2 u2 n2).database_url ∧
      (test_database db1 u1 n1).database_name = (test_database db2 u2 n2).database_name) := by
  constructor
  · intro db u n
    constructor
    · rw [test_database_url_proj]
      cases h : envSet u <;> simp
    · rw [test_database_name_proj]
      cases h : envSet n <;> simp
  · intro db1 db2 u1 u2 n1 n2 h1 h2 h3 h4
    rw [test_database_url_proj, test_database_url_proj,
      test_database_name_proj, test_database_name_proj, h1, h2, h3, h4]
    exact ⟨rfl, rfl⟩

/-- C9 witness: two runs with different connection strings and database
names, both present, report identical configuration fields. -/
theorem test_database_reports_presence_only_witness :
    (test_database (some ⟨"proddb", .ok ["expense"]⟩)
        (some "mongodb://host-a") (some "proddb")).database_url =
      (test_database (some ⟨"otherdb", .error "boom"⟩)
        (some "mongodb://host-b") (some "otherdb")).database_url ∧
    (test_database (some ⟨"proddb", .ok ["expense"]⟩)
        (some "mongodb://host-a") (some "proddb")).database_name =
      (test_database (some ⟨"otherdb", .error "boom"⟩)
        (some "mongodb://host-b") (some "otherdb")).database_name :=
  test_database_reports_presence_only.2 _ _ _ _ _ _ rfl rfl rfl rfl
